import Mathlib

/-!
Verification of the Mobile Mesh Sentinel signaling server and node agent.

The registry (`mms_signaling_server.py`) is modelled as an association list
from JSON values to node records, mirroring the Python dict `active_nodes`;
each HTTP handler becomes a pure function from a request body and the
current registry to a response plus the next registry.  Times are `Int`
(seconds), standing in for `datetime.now()`.

The node agent (`mms_node_beta.py`) is modelled by pure functions for the
peer-cache merge in `discover_peers`, the connection handler
`handle_peer_connection`, and `send_message_to_peer`; the network is a
parameter mapping a dialed address and envelope to an optional raw reply.
-/

/-- JSON scalar values, enough to model request-body fields and dict keys.
`jnull` models Python `None` (also the result of `dict.get` on a missing key). -/
inductive JVal where
  | jnull : JVal
  | jbool : Bool → JVal
  | jnum : Int → JVal
  | jstr : String → JVal
deriving DecidableEq, Repr

/-- Python truthiness test `not v` on a JSON scalar:
`None`, `False`, `0` and `""` are falsy. -/
def JVal.falsy : JVal → Bool
  | .jnull => true
  | .jbool b => !b
  | .jnum n => n == 0
  | .jstr s => s == ""

/-- A JSON request body: finitely many string-keyed fields. -/
abbrev Body := List (String × JVal)

/-- First value bound to key `k`, if any (Python `k in data` / `data[k]`). -/
def Body.get? : Body → String → Option JVal
  | [], _ => none
  | p :: rest, k => if p.1 = k then some p.2 else Body.get? rest k

/-- Python `k in data`. -/
def Body.hasKey (b : Body) (k : String) : Bool :=
  (b.get? k).isSome

/-- Python `data.get(k)`: the bound value, or `None` when the key is absent. -/
def Body.dget (b : Body) (k : String) : JVal :=
  (b.get? k).getD .jnull

/-- A registry record, from `Node.__init__` in `mms_signaling_server.py`:
`node_id`, `ip_address`, `port`, `public_key` (defaulting to `None`),
and the two timestamps, both set to `now` at construction. -/
structure Node where
  node_id : JVal
  ip_address : String
  port : JVal
  public_key : JVal
  last_heartbeat : Int
  registered_at : Int
deriving DecidableEq, Repr

/-- The wire representation of a record, from `Node.to_dict`:
`last_seen` is the heartbeat timestamp, `uptime_seconds` the age of the
record at serialization time. -/
structure NodeDict where
  node_id : JVal
  ip_address : String
  port : JVal
  public_key : JVal
  last_seen : Int
  uptime_seconds : Int
deriving DecidableEq, Repr

/-- `Node.to_dict`, with `now` the serialization instant. -/
def Node.to_dict (now : Int) (n : Node) : NodeDict :=
  ⟨n.node_id, n.ip_address, n.port, n.public_key, n.last_heartbeat,
    now - n.registered_at⟩

/-- The in-memory store `active_nodes`: a dict from node id to record,
modelled as an association list (first binding wins). -/
abbrev Registry := List (JVal × Node)

/-- Dict lookup `k in active_nodes` / `active_nodes[k]`. -/
def Registry.find? : Registry → JVal → Option Node
  | [], _ => none
  | p :: rest, k => if p.1 = k then some p.2 else Registry.find? rest k

/-- Dict assignment `active_nodes[k] = v`: replace the existing binding in
place, or append a new one. -/
def Registry.insert : Registry → JVal → Node → Registry
  | [], k, v => [(k, v)]
  | p :: rest, k, v =>
      if p.1 = k then (k, v) :: rest else p :: Registry.insert rest k v

/-- Dict deletion `del active_nodes[k]`: drop the binding for `k`. -/
def Registry.erase : Registry → JVal → Registry
  | [], _ => []
  | p :: rest, k =>
      if p.1 = k then Registry.erase rest k else p :: Registry.erase rest k

/-- Well-formedness of the model: dict keys are pairwise distinct
(guaranteed by Python dicts). -/
def Registry.WF (r : Registry) : Prop :=
  (r.map Prod.fst).Nodup

/-- Key/record consistency: every record is stored under its own
`node_id`, as `register_node` establishes. -/
def Registry.Consistent (r : Registry) : Prop :=
  ∀ p ∈ r, (Prod.snd p).node_id = p.1

instance (r : Registry) : Decidable r.WF :=
  inferInstanceAs (Decidable (List.Nodup _))

instance (r : Registry) : Decidable r.Consistent :=
  inferInstanceAs (Decidable (∀ p ∈ _, _))

/-- Response of `/register`: HTTP status plus the next registry state. -/
structure RegResult where
  status : Nat
  registry : Registry
deriving DecidableEq

/-- `/register` (`register_node`): requires the keys `node_id` and `port`
to be present (any values); builds a fresh record with both timestamps set
to `now` and stores it under `node_id`, overwriting any existing binding. -/
def register_node (body : Body) (ip : String) (now : Int) (reg : Registry) :
    RegResult :=
  if body.hasKey "node_id" && body.hasKey "port" then
    let node_id := body.dget "node_id"
    let port := body.dget "port"
    let public_key := body.dget "public_key"
    let node : Node := ⟨node_id, ip, port, public_key, now, now⟩
    ⟨201, reg.insert node_id node⟩
  else
    ⟨400, reg⟩

/-- Response of `/heartbeat`: HTTP status plus the next registry state. -/
structure HbResult where
  status : Nat
  registry : Registry
deriving DecidableEq

/-- `/heartbeat` (`heartbeat`): rejects a falsy `node_id` with 400; if the
id is registered, sets that record's `last_heartbeat` to `now` (200),
otherwise 404. -/
def heartbeat (body : Body) (now : Int) (reg : Registry) : HbResult :=
  let node_id := body.dget "node_id"
  if node_id.falsy then
    ⟨400, reg⟩
  else
    match reg.find? node_id with
    | some _ =>
        ⟨200, reg.map (fun p =>
          if p.1 = node_id then (p.1, { p.2 with last_heartbeat := now }) else p)⟩
    | none => ⟨404, reg⟩

/-- Response of `/discover`: HTTP status, `peer_count`, `peers`, and the
next registry state (`peer_count`/`peers` are meaningful only on 200). -/
structure DiscResult where
  status : Nat
  peer_count : Nat
  peers : List NodeDict
  registry : Registry
deriving DecidableEq

/-- `/discover` (`discover_peers`): rejects a falsy `node_id` with 400;
otherwise returns every record except the requester's own, serialized. -/
def discover_peers (body : Body) (now : Int) (reg : Registry) : DiscResult :=
  let requesting := body.dget "node_id"
  if requesting.falsy then
    ⟨400, 0, [], reg⟩
  else
    let peers := (reg.filter (fun p => p.1 ≠ requesting)).map
      (fun p => p.2.to_dict now)
    ⟨200, peers.length, peers, reg⟩

/-- Response of `/unregister`: HTTP status plus the next registry state. -/
structure UnregResult where
  status : Nat
  registry : Registry
deriving DecidableEq

/-- `/unregister` (`unregister_node`): rejects a falsy `node_id` with 400;
deletes a registered id (200), otherwise 404. -/
def unregister_node (body : Body) (reg : Registry) : UnregResult :=
  let node_id := body.dget "node_id"
  if node_id.falsy then
    ⟨400, reg⟩
  else
    match reg.find? node_id with
    | some _ => ⟨200, reg.erase node_id⟩
    | none => ⟨404, reg⟩

/-- Response of `/nodes`: totals, serialized records, next registry state. -/
structure ListResult where
  total_nodes : Nat
  nodes : List NodeDict
  registry : Registry
deriving DecidableEq

/-- `/nodes` (`list_nodes`): serializes every record. -/
def list_nodes (now : Int) (reg : Registry) : ListResult :=
  let nodes := reg.map (fun p => p.2.to_dict now)
  ⟨nodes.length, nodes, reg⟩

/-- Response of `/health`: active node count and next registry state. -/
structure HealthResult where
  active_nodes : Nat
  registry : Registry
deriving DecidableEq

/-- `/health` (`health_check`): reports `len(active_nodes)`. -/
def health_check (reg : Registry) : HealthResult :=
  ⟨reg.length, reg⟩

/-- One pass of the reaper loop body in `cleanup_stale_nodes`: collect the
ids whose `last_heartbeat` precedes `now - timeout`, then delete each. -/
def reap (now timeout : Int) (reg : Registry) : Registry :=
  let stale := (reg.filter (fun p => p.2.last_heartbeat < now - timeout)).map
    Prod.fst
  stale.foldl Registry.erase reg

/-!  The node agent (`mms_node_beta.py`). -/

/-- The agent's peer cache `self.peers`: a dict from a peer's `node_id` to
the serialized record obtained from discovery. -/
abbrev PeerView := List (JVal × NodeDict)

/-- Dict lookup `peer_id in self.peers` / `self.peers[peer_id]`. -/
def PeerView.find? : PeerView → JVal → Option NodeDict
  | [], _ => none
  | p :: rest, k => if p.1 = k then some p.2 else PeerView.find? rest k

/-- Dict assignment `self.peers[peer_id] = peer`. -/
def PeerView.insert : PeerView → JVal → NodeDict → PeerView
  | [], k, v => [(k, v)]
  | p :: rest, k, v =>
      if p.1 = k then (k, v) :: rest else p :: PeerView.insert rest k v

/-- The merge loop in `MeshNode.discover_peers`:
`for peer in new_peers: if peer['node_id'] not in self.peers:
self.peers[peer['node_id']] = peer`. -/
def mergePeers (pv : PeerView) (new_peers : List NodeDict) : PeerView :=
  new_peers.foldl
    (fun acc peer =>
      if (acc.find? peer.node_id).isSome then acc
      else acc.insert peer.node_id peer)
    pv

/-- The message built by `send_message_to_peer`:
`{source, destination, type, payload, timestamp}`. -/
structure Envelope where
  source : JVal
  destination : JVal
  type : String
  payload : String
  timestamp : Int
deriving DecidableEq, Repr

/-- The acknowledgment body built by `handle_peer_connection`:
`{status: 'received', timestamp}`. -/
structure Ack where
  status : String
  timestamp : Int
deriving DecidableEq, Repr

/-- `MeshNode.handle_peer_connection` on one accepted connection: the input
is `some` envelope when the received buffer is nonempty and parses, `none`
otherwise (empty read, or `json.loads` raised and the handler sent
nothing).  On a parsed message it replies `{status: 'received',
timestamp: now}` regardless of the message's content. -/
def handle_peer_connection (data : Option Envelope) (now : Int) :
    Option Ack :=
  data.map (fun _ => ⟨"received", now⟩)

/-- One dial attempt recorded by the model of `send_message_to_peer`:
the address passed to `sock.connect` and the envelope written. -/
structure NetAttempt where
  ip : String
  port : JVal
  envelope : Envelope
deriving DecidableEq, Repr

/-- The outcome of `send_message_to_peer`: the Python return value
(`True`/`False`), the dial attempts made, and the peer cache afterwards
(the method never writes `self.peers`). -/
structure SendOutcome where
  retval : Bool
  attempts : List NetAttempt
  peers : PeerView
deriving DecidableEq

/-- `MeshNode.send_message_to_peer`: if `peer_id` is not cached, print and
return `False` without touching any socket; otherwise dial the cached
address, write the envelope, read one raw reply (`net` returns `some` raw
ack on success, `none` when connect/send/recv raises), and return `True`
on success, `False` on failure.  The reply is printed, never returned. -/
def send_message_to_peer (pv : PeerView) (self_id peer_id : JVal)
    (message_type payload : String) (now : Int)
    (net : String → JVal → Envelope → Option Ack) : SendOutcome :=
  match pv.find? peer_id with
  | none => ⟨false, [], pv⟩
  | some peer =>
      let message : Envelope := ⟨self_id, peer_id, message_type, payload, now⟩
      match net peer.ip_address peer.port message with
      | some _ => ⟨true, [⟨peer.ip_address, peer.port, message⟩], pv⟩
      | none => ⟨false, [⟨peer.ip_address, peer.port, message⟩], pv⟩

/-!  Dictionary lemmas. -/

theorem Registry.find?_insert_self (reg : Registry) (k : JVal) (v : Node) :
    (reg.insert k v).find? k = some v := by
  induction reg with
  | nil => simp [Registry.insert, Registry.find?]
  | cons p rest ih =>
      by_cases h : p.1 = k
      · simp [Registry.insert, h, Registry.find?]
      · simp [Registry.insert, h, Registry.find?, ih]

theorem Registry.find?_insert_ne (reg : Registry) (k : JVal) (v : Node)
    (k' : JVal) (h : k' ≠ k) : (reg.insert k v).find? k' = reg.find? k' := by
  induction reg with
  | nil => simp [Registry.insert, Registry.find?, h, Ne.symm h]
  | cons p rest ih =>
      by_cases hp : p.1 = k
      · subst hp
        simp [Registry.insert, Registry.find?, h, h.symm]
      · by_cases hk : p.1 = k'
        · simp [Registry.insert, hp, Registry.find?, hk, h]
        · simp [Registry.insert, hp, Registry.find?, hk, h, ih]

theorem Registry.erase_find? (reg : Registry) (k' k : JVal) :
    (reg.erase k').find? k = if k = k' then none else reg.find? k := by
  induction reg with
  | nil => simp [Registry.erase, Registry.find?]
  | cons p rest ih =>
      by_cases hp : p.1 = k'
      · by_cases hk : k = k'
        · subst hk
          simp [Registry.erase, hp, ih]
        · have hpk : ¬ p.1 = k := by rw [hp]; exact fun hc => hk hc.symm
          have hk' : ¬ k' = k := fun hc => hk hc.symm
          simp [Registry.erase, hp, ih, hk, Registry.find?, hpk, hk']
      · by_cases hk2 : p.1 = k
        · have hkk : ¬ k = k' := fun hc => hp (hk2.symm ▸ hc ▸ rfl)
          simp [Registry.erase, hp, Registry.find?, hk2, hkk]
        · simp [Registry.erase, hp, Registry.find?, hk2, ih]

theorem Registry.foldl_erase_find? (L : List JVal) (reg : Registry)
    (k : JVal) :
    (L.foldl Registry.erase reg).find? k =
      if k ∈ L then none else reg.find? k := by
  induction L generalizing reg with
  | nil => simp
  | cons a L ih =>
      simp only [List.foldl_cons, ih, Registry.erase_find?]
      by_cases h : k = a
      · by_cases hk : k ∈ L <;> simp [h, hk]
      · by_cases hk : k ∈ L <;> simp [h, hk]

theorem Registry.find?_eq_none_iff (reg : Registry) (k : JVal) :
    reg.find? k = none ↔ ∀ n, (k, n) ∉ reg := by
  induction reg with
  | nil => simp [Registry.find?]
  | cons p rest ih =>
      by_cases h : p.1 = k
      · subst h
        simp only [Registry.find?, if_pos rfl]
        constructor
        · intro hc; exact absurd hc (by simp)
        · intro hall
          exact absurd (List.mem_cons_self p rest) (by simpa using hall p.2)
      · simp only [Registry.find?, if_neg h, ih, List.mem_cons]
        constructor
        · intro hall n hc
          rcases hc with hc | hc
          · exact h (congrArg Prod.fst hc).symm
          · exact hall n hc
        · intro hall n hc
          exact hall n (Or.inr hc)

theorem Registry.mem_of_find? (reg : Registry) (k : JVal) (n : Node)
    (h : reg.find? k = some n) : (k, n) ∈ reg := by
  induction reg with
  | nil => simp [Registry.find?] at h
  | cons p rest ih =>
      by_cases hp : p.1 = k
      · simp only [Registry.find?, if_pos hp] at h
        have h2 : p.2 = n := Option.some_inj.mp h
        exact List.mem_cons.mpr (Or.inl (by rw [← hp, ← h2]))
      · simp only [Registry.find?, if_neg hp] at h
        exact List.mem_cons_of_mem _ (ih h)

theorem Registry.find?_of_mem (reg : Registry) (k : JVal) (n : Node)
    (hwf : reg.WF) (h : (k, n) ∈ reg) : reg.find? k = some n := by
  induction reg with
  | nil => simp at h
  | cons p rest ih =>
      rw [Registry.WF, List.map_cons, List.nodup_cons] at hwf
      rcases List.mem_cons.mp h with hc | hc
      · rw [← hc]
        simp [Registry.find?]
      · have hne : p.1 ≠ k := by
          intro he
          exact hwf.1 (he ▸ (List.mem_map_of_mem Prod.fst hc))
        simp only [Registry.find?, if_neg hne]
        exact ih hwf.2 hc

theorem Registry.hb_map_find? (reg : Registry) (nid : JVal) (now : Int)
    (k : JVal) :
    Registry.find? (reg.map (fun p =>
        if p.1 = nid then (p.1, { p.2 with last_heartbeat := now }) else p)) k =
    (reg.find? k).map
      (fun n => if k = nid then { n with last_heartbeat := now } else n) := by
  induction reg with
  | nil => simp [Registry.find?]
  | cons p rest ih =>
      by_cases hp : p.1 = nid
      · by_cases hk : p.1 = k
        · simp [Registry.find?, hp, hk, hk ▸ hp]
        · have hnk : ¬ nid = k := fun hc => hk (hp.trans hc)
          simp [Registry.find?, hp, hk, hnk, ih]
      · by_cases hk : p.1 = k
        · have : ¬ k = nid := fun hc => hp (hk.symm ▸ hc)
          simp [Registry.find?, hp, hk, this]
        · simp [Registry.find?, hp, hk, ih]

/-- Effect of one reaper pass on a single key: a record disappears exactly
when its `last_heartbeat` precedes `now - timeout`, and is otherwise kept
unchanged. -/
theorem reap_find? (reg : Registry) (now timeout : Int) (k : JVal)
    (hwf : reg.WF) :
    (reap now timeout reg).find? k =
      match reg.find? k with
      | none => none
      | some n => if n.last_heartbeat < now - timeout then none else some n := by
  rw [reap, Registry.foldl_erase_find?]
  have hmem : (k ∈ (reg.filter
      (fun p => p.2.last_heartbeat < now - timeout)).map Prod.fst) ↔
      ∃ n, (k, n) ∈ reg ∧ n.last_heartbeat < now - timeout := by
    simp only [List.mem_map, List.mem_filter, decide_eq_true_eq]
    constructor
    · rintro ⟨⟨k', n⟩, ⟨hmem, hcond⟩, hfst⟩
      exact ⟨n, by simpa [← hfst] using hmem, hcond⟩
    · rintro ⟨n, hmem, hcond⟩
      exact ⟨(k, n), ⟨hmem, hcond⟩, rfl⟩
  cases hfind : reg.find? k with
  | none =>
      have hnone : ∀ n, (k, n) ∉ reg := (Registry.find?_eq_none_iff reg k).mp hfind
      have : ¬ (k ∈ (reg.filter
          (fun p => p.2.last_heartbeat < now - timeout)).map Prod.fst) := by
        rw [hmem]; rintro ⟨n, hn, _⟩; exact hnone n hn
      simp [this]
  | some n =>
      by_cases hcond : n.last_heartbeat < now - timeout
      · have : k ∈ (reg.filter
            (fun p => p.2.last_heartbeat < now - timeout)).map Prod.fst := by
          rw [hmem]
          exact ⟨n, Registry.mem_of_find? reg k n hfind, hcond⟩
        simp [this, hcond]
      · have : ¬ (k ∈ (reg.filter
            (fun p => p.2.last_heartbeat < now - timeout)).map Prod.fst) := by
          rw [hmem]
          rintro ⟨n', hn', hcond'⟩
          have := Registry.find?_of_mem reg k n' hwf hn'
          rw [hfind] at this
          exact hcond (Option.some_inj.mp this ▸ hcond')
        simp [this, hcond, hfind]

theorem PeerView.insert_find?_self (pv : PeerView) (k : JVal) (v : NodeDict) :
    (pv.insert k v).find? k = some v := by
  induction pv with
  | nil => simp [PeerView.insert, PeerView.find?]
  | cons p rest ih =>
      by_cases h : p.1 = k
      · simp [PeerView.insert, h, PeerView.find?]
      · simp [PeerView.insert, h, PeerView.find?, ih]

theorem PeerView.insert_find?_ne (pv : PeerView) (k : JVal) (v : NodeDict)
    (k' : JVal) (h : k' ≠ k) : (pv.insert k v).find? k' = pv.find? k' := by
  induction pv with
  | nil => simp [PeerView.insert, PeerView.find?, h, Ne.symm h]
  | cons p rest ih =>
      by_cases hp : p.1 = k
      · subst hp
        simp [PeerView.insert, PeerView.find?, h, h.symm]
      · by_cases hk : p.1 = k'
        · simp [PeerView.insert, hp, PeerView.find?, hk, h]
        · simp [PeerView.insert, hp, PeerView.find?, hk, h, ih]

/-!  Claims. -/

/-- C1: one reaper pass removes a record exactly when
`now - last_heartbeat > timeout`; a record whose heartbeat lies within the
timeout (`now - last_heartbeat ≤ timeout`, in particular any node whose
heartbeats are spaced strictly less than the timeout apart) survives the
pass unchanged. -/
theorem C1_reap_exact (reg : Registry) (now timeout : Int) (k : JVal)
    (n : Node) (hwf : reg.WF) (h : reg.find? k = some n) :
    ((reap now timeout reg).find? k = none ↔ now - n.last_heartbeat > timeout)
    ∧ (now - n.last_heartbeat ≤ timeout →
        (reap now timeout reg).find? k = some n) := by
  have hr := reap_find? reg now timeout k hwf
  rw [h] at hr
  constructor
  · constructor
    · intro hnone
      rw [hr] at hnone
      by_cases hc : n.last_heartbeat < now - timeout
      · omega
      · simp [hc] at hnone
    · intro hgt
      rw [hr]
      have hc : n.last_heartbeat < now - timeout := by omega
      simp [hc]
  · intro hle
    rw [hr]
    have hc : ¬ n.last_heartbeat < now - timeout := by omega
    simp [hc]

/-- C1 witness: in a registry holding node A (last heartbeat at 0) and
node B (last heartbeat at 25), the reaper pass at time 50 with a
30-second timeout removes A (50 - 0 > 30) and keeps B (50 - 25 ≤ 30). -/
theorem C1_reap_exact_witness :
    (reap 50 30 [((JVal.jstr "A"),
        (⟨JVal.jstr "A", "10.0.0.1", JVal.jnum 8001, JVal.jnull, 0, 0⟩ : Node)),
      ((JVal.jstr "B"),
        (⟨JVal.jstr "B", "10.0.0.2", JVal.jnum 8002, JVal.jnull, 25, 25⟩ : Node))]
      ).find? (JVal.jstr "A") = none
    ∧ (reap 50 30 [((JVal.jstr "A"),
        (⟨JVal.jstr "A", "10.0.0.1", JVal.jnum 8001, JVal.jnull, 0, 0⟩ : Node)),
      ((JVal.jstr "B"),
        (⟨JVal.jstr "B", "10.0.0.2", JVal.jnum 8002, JVal.jnull, 25, 25⟩ : Node))]
      ).find? (JVal.jstr "B") =
        some ⟨JVal.jstr "B", "10.0.0.2", JVal.jnum 8002, JVal.jnull, 25, 25⟩ := by
  constructor
  · exact (C1_reap_exact _ 50 30 (JVal.jstr "A")
      ⟨JVal.jstr "A", "10.0.0.1", JVal.jnum 8001, JVal.jnull, 0, 0⟩
      (by decide) (by decide)).1.mpr (by decide)
  · exact (C1_reap_exact _ 50 30 (JVal.jstr "B")
      ⟨JVal.jstr "B", "10.0.0.2", JVal.jnum 8002, JVal.jnull, 25, 25⟩
      (by decide) (by decide)).2 (by decide)

/-- C4: a register request missing `node_id` or `port` is rejected with
status 400 and leaves the registry (hence the active node count)
unchanged. -/
theorem C4_register_missing_field (body : Body) (ip : String) (now : Int)
    (reg : Registry)
    (h : ¬ (body.hasKey "node_id" = true ∧ body.hasKey "port" = true)) :
    (register_node body ip now reg).status = 400
    ∧ (register_node body ip now reg).registry = reg
    ∧ (register_node body ip now reg).registry.length = reg.length := by
  have hc : (body.hasKey "node_id" && body.hasKey "port") = false := by
    rcases Bool.eq_false_or_eq_true (body.hasKey "node_id") with h1 | h1
    · rcases Bool.eq_false_or_eq_true (body.hasKey "port") with h2 | h2
      · exact absurd ⟨h1, h2⟩ h
      · simp [h2]
    · simp [h1]
  refine ⟨?_, ?_, ?_⟩ <;> simp [register_node, hc]

/-- C4 witness: a register request carrying only `node_id` is rejected
with 400 and the one-node registry is untouched. -/
theorem C4_register_missing_field_witness :
    (register_node [("node_id", JVal.jstr "X")] "10.0.0.3" 50
      [((JVal.jstr "A"),
        (⟨JVal.jstr "A", "10.0.0.1", JVal.jnum 8001, JVal.jnull, 0, 0⟩ : Node))]
      ).status = 400
    ∧ (register_node [("node_id", JVal.jstr "X")] "10.0.0.3" 50
      [((JVal.jstr "A"),
        (⟨JVal.jstr "A", "10.0.0.1", JVal.jnum 8001, JVal.jnull, 0, 0⟩ : Node))]
      ).registry =
      [((JVal.jstr "A"),
        (⟨JVal.jstr "A", "10.0.0.1", JVal.jnum 8001, JVal.jnull, 0, 0⟩ : Node))] := by
  have h := C4_register_missing_field [("node_id", JVal.jstr "X")] "10.0.0.3" 50
    [((JVal.jstr "A"),
      (⟨JVal.jstr "A", "10.0.0.1", JVal.jnum 8001, JVal.jnull, 0, 0⟩ : Node))]
    (by decide)
  exact ⟨h.1, h.2.1⟩

/-- C7: a send to a peer id absent from the peer cache returns `False`
with no dial attempt (no socket is created, whatever the network would
answer) and leaves the peer cache unchanged. -/
theorem C7_send_unknown_peer (pv : PeerView) (self_id pid : JVal)
    (message_type payload : String) (now : Int)
    (h : pv.find? pid = none) :
    ∀ net, send_message_to_peer pv self_id pid message_type payload now net =
      ⟨false, [], pv⟩ := by
  intro net
  simp [send_message_to_peer, h]

/-- C7 witness: sending to uncached id "Z" from a cache holding only "B"
returns `False`, attempts no dial, and leaves the cache as it was. -/
theorem C7_send_unknown_peer_witness :
    send_message_to_peer
      [((JVal.jstr "B"),
        (⟨JVal.jstr "B", "10.0.0.2", JVal.jnum 8002, JVal.jnull, 25, 25⟩ : NodeDict))]
      (JVal.jstr "A") (JVal.jstr "Z") "text" "hi" 0
      (fun _ _ _ => none) =
    ⟨false, [],
      [((JVal.jstr "B"),
        (⟨JVal.jstr "B", "10.0.0.2", JVal.jnum 8002, JVal.jnull, 25, 25⟩ : NodeDict))]⟩ :=
  C7_send_unknown_peer _ (JVal.jstr "A") (JVal.jstr "Z") "text" "hi" 0
    (by decide) (fun _ _ _ => none)

/-- C2 counterexample: with the falsy requester id `""` present in the
request and node A registered, discover answers 400 with no peer list
instead of returning the records other than the requester's. -/
theorem C2_counterexample :
    (discover_peers [("node_id", JVal.jstr "")] 50
      [((JVal.jstr "A"),
        (⟨JVal.jstr "A", "10.0.0.1", JVal.jnum 8001, JVal.jnull, 0, 0⟩ : Node))]
      ).status = 400
    ∧ (discover_peers [("node_id", JVal.jstr "")] 50
      [((JVal.jstr "A"),
        (⟨JVal.jstr "A", "10.0.0.1", JVal.jnum 8001, JVal.jnull, 0, 0⟩ : Node))]
      ).peers = [] := by
  decide

/-- C2 (amended): for a truthy requester id, discover returns 200 with
exactly the serialized records whose key differs from the requester
(self-exclusion: the requester's own record never appears), and
`peer_count` equals the number of returned records. (A falsy requester
id, even when present, is rejected with 400.) -/
theorem C2_discover_exact (reg : Registry) (now : Int) (rid : JVal)
    (body : Body) (hwf : reg.WF) (hcons : reg.Consistent)
    (hbody : body.dget "node_id" = rid) (ht : rid.falsy = false) :
    (discover_peers body now reg).status = 200
    ∧ (discover_peers body now reg).peer_count =
        (discover_peers body now reg).peers.length
    ∧ (∀ d, d ∈ (discover_peers body now reg).peers ↔
        ∃ k n, reg.find? k = some n ∧ k ≠ rid ∧ d = n.to_dict now)
    ∧ (∀ n, reg.find? rid = some n →
        n.to_dict now ∉ (discover_peers body now reg).peers) := by
  have hres : discover_peers body now reg =
      ⟨200,
        ((reg.filter (fun p => p.1 ≠ rid)).map (fun p => p.2.to_dict now)).length,
        (reg.filter (fun p => p.1 ≠ rid)).map (fun p => p.2.to_dict now),
        reg⟩ := by
    simp [discover_peers, hbody, ht]
  rw [hres]
  refine ⟨rfl, rfl, ?_, ?_⟩
  · intro d
    simp only [List.mem_map, List.mem_filter, decide_eq_true_eq]
    constructor
    · rintro ⟨⟨k, n⟩, ⟨hmem, hne⟩, hd⟩
      exact ⟨k, n, Registry.find?_of_mem reg k n hwf hmem, hne, hd.symm⟩
    · rintro ⟨k, n, hfind, hne, hd⟩
      exact ⟨(k, n), ⟨Registry.mem_of_find? reg k n hfind, hne⟩, hd.symm⟩
  · intro n hfind hmem
    simp only [List.mem_map, List.mem_filter, decide_eq_true_eq] at hmem
    rcases hmem with ⟨⟨k, m⟩, ⟨hmem', hne⟩, hd⟩
    have h1 : m.node_id = k := hcons (k, m) hmem'
    have h2 : n.node_id = rid :=
      hcons (rid, n) (Registry.mem_of_find? reg rid n hfind)
    have h3 : m.node_id = n.node_id := congrArg NodeDict.node_id hd
    exact hne (by rw [← h1, h3, h2])

/-- C2 witness: with A and B registered, discover for "A" at time 50
answers 200, its peer list contains B's serialized record, omits A's own,
and `peer_count` matches the list length. -/
theorem C2_discover_exact_witness :
    (discover_peers [("node_id", JVal.jstr "A")] 50
      [((JVal.jstr "A"),
        (⟨JVal.jstr "A", "10.0.0.1", JVal.jnum 8001, JVal.jnull, 0, 0⟩ : Node)),
       ((JVal.jstr "B"),
        (⟨JVal.jstr "B", "10.0.0.2", JVal.jnum 8002, JVal.jnull, 25, 25⟩ : Node))]
      ).status = 200
    ∧ (⟨JVal.jstr "B", "10.0.0.2", JVal.jnum 8002, JVal.jnull, 25, 25⟩ : NodeDict)
      ∈ (discover_peers [("node_id", JVal.jstr "A")] 50
      [((JVal.jstr "A"),
        (⟨JVal.jstr "A", "10.0.0.1", JVal.jnum 8001, JVal.jnull, 0, 0⟩ : Node)),
       ((JVal.jstr "B"),
        (⟨JVal.jstr "B", "10.0.0.2", JVal.jnum 8002, JVal.jnull, 25, 25⟩ : Node))]
      ).peers
    ∧ (⟨JVal.jstr "A", "10.0.0.1", JVal.jnum 8001, JVal.jnull, 0, 50⟩ : NodeDict)
      ∉ (discover_peers [("node_id", JVal.jstr "A")] 50
      [((JVal.jstr "A"),
        (⟨JVal.jstr "A", "10.0.0.1", JVal.jnum 8001, JVal.jnull, 0, 0⟩ : Node)),
       ((JVal.jstr "B"),
        (⟨JVal.jstr "B", "10.0.0.2", JVal.jnum 8002, JVal.jnull, 25, 25⟩ : Node))]
      ).peers
    ∧ (discover_peers [("node_id", JVal.jstr "A")] 50
      [((JVal.jstr "A"),
        (⟨JVal.jstr "A", "10.0.0.1", JVal.jnum 8001, JVal.jnull, 0, 0⟩ : Node)),
       ((JVal.jstr "B"),
        (⟨JVal.jstr "B", "10.0.0.2", JVal.jnum 8002, JVal.jnull, 25, 25⟩ : Node))]
      ).peer_count =
      (discover_peers [("node_id", JVal.jstr "A")] 50
      [((JVal.jstr "A"),
        (⟨JVal.jstr "A", "10.0.0.1", JVal.jnum 8001, JVal.jnull, 0, 0⟩ : Node)),
       ((JVal.jstr "B"),
        (⟨JVal.jstr "B", "10.0.0.2", JVal.jnum 8002, JVal.jnull, 25, 25⟩ : Node))]
      ).peers.length := by
  have h := C2_discover_exact
    [((JVal.jstr "A"),
      (⟨JVal.jstr "A", "10.0.0.1", JVal.jnum 8001, JVal.jnull, 0, 0⟩ : Node)),
     ((JVal.jstr "B"),
      (⟨JVal.jstr "B", "10.0.0.2", JVal.jnum 8002, JVal.jnull, 25, 25⟩ : Node))]
    50 (JVal.jstr "A") [("node_id", JVal.jstr "A")]
    (by decide) (by decide) (by decide) (by decide)
  refine ⟨h.1, ?_, ?_, h.2.1⟩
  · exact (h.2.2.1 _).mpr
      ⟨JVal.jstr "B",
        ⟨JVal.jstr "B", "10.0.0.2", JVal.jnum 8002, JVal.jnull, 25, 25⟩,
        by decide, by decide, by decide⟩
  · exact h.2.2.2
      ⟨JVal.jstr "A", "10.0.0.1", JVal.jnum 8001, JVal.jnull, 0, 0⟩ (by decide)

/-- C3 counterexample: a node registered under the falsy id `""` is
present in the registry, yet its heartbeat is rejected with 400 (neither
the claimed 200 nor the claimed 404), so "succeeds iff registered,
otherwise 404" fails as stated. -/
theorem C3_counterexample :
    Registry.find?
      [((JVal.jstr ""),
        (⟨JVal.jstr "", "10.0.0.9", JVal.jnum 9, JVal.jnull, 40, 40⟩ : Node))]
      (JVal.jstr "") =
      some ⟨JVal.jstr "", "10.0.0.9", JVal.jnum 9, JVal.jnull, 40, 40⟩
    ∧ (heartbeat [("node_id", JVal.jstr "")] 50
      [((JVal.jstr ""),
        (⟨JVal.jstr "", "10.0.0.9", JVal.jnum 9, JVal.jnull, 40, 40⟩ : Node))]
      ).status = 400
    ∧ (heartbeat [("node_id", JVal.jstr "")] 50
      [((JVal.jstr ""),
        (⟨JVal.jstr "", "10.0.0.9", JVal.jnum 9, JVal.jnull, 40, 40⟩ : Node))]
      ).registry =
      [((JVal.jstr ""),
        (⟨JVal.jstr "", "10.0.0.9", JVal.jnum 9, JVal.jnull, 40, 40⟩ : Node))] := by
  decide

/-- C3 (amended): for a request carrying a truthy `node_id`, heartbeat
succeeds with 200 and sets exactly that record's `last_heartbeat` to now
(all other fields and all other records untouched) iff the id is
registered; otherwise it fails with 404 and the registry is unchanged.
(A falsy `node_id` is rejected with 400 regardless of registration.) -/
theorem C3_heartbeat_exact (reg : Registry) (now : Int) (nid : JVal)
    (body : Body) (hbody : body.dget "node_id" = nid)
    (ht : nid.falsy = false) :
    (∀ n, reg.find? nid = some n →
        (heartbeat body now reg).status = 200
        ∧ (heartbeat body now reg).registry.find? nid =
            some { n with last_heartbeat := now }
        ∧ ∀ k, k ≠ nid →
            (heartbeat body now reg).registry.find? k = reg.find? k)
    ∧ (reg.find? nid = none →
        (heartbeat body now reg).status = 404
        ∧ (heartbeat body now reg).registry = reg) := by
  constructor
  · intro n hn
    refine ⟨?_, ?_, ?_⟩
    · simp [heartbeat, hbody, ht, hn]
    · simp only [heartbeat, hbody, ht, Bool.false_eq_true, if_false, hn]
      rw [Registry.hb_map_find? reg nid now nid, hn]
      simp
    · intro k hk
      simp only [heartbeat, hbody, ht, Bool.false_eq_true, if_false, hn]
      rw [Registry.hb_map_find? reg nid now k]
      cases reg.find? k with
      | none => rfl
      | some m => simp [hk]
  · intro hn
    constructor <;> simp [heartbeat, hbody, ht, hn]

/-- C3 witness: with "A" registered (last heartbeat 0) next to "B"
(last heartbeat 25), heartbeating "A" at time 50 returns 200, sets A's
`last_heartbeat` to 50 leaving its other fields and B's record untouched,
while heartbeating the unregistered "C" returns 404 with the registry
unchanged. -/
theorem C3_heartbeat_exact_witness :
    (heartbeat [("node_id", JVal.jstr "A")] 50
      [((JVal.jstr "A"),
        (⟨JVal.jstr "A", "10.0.0.1", JVal.jnum 8001, JVal.jnull, 0, 0⟩ : Node)),
       ((JVal.jstr "B"),
        (⟨JVal.jstr "B", "10.0.0.2", JVal.jnum 8002, JVal.jnull, 25, 25⟩ : Node))]
      ).status = 200
    ∧ (heartbeat [("node_id", JVal.jstr "A")] 50
      [((JVal.jstr "A"),
        (⟨JVal.jstr "A", "10.0.0.1", JVal.jnum 8001, JVal.jnull, 0, 0⟩ : Node)),
       ((JVal.jstr "B"),
        (⟨JVal.jstr "B", "10.0.0.2", JVal.jnum 8002, JVal.jnull, 25, 25⟩ : Node))]
      ).registry.find? (JVal.jstr "A") =
        some ⟨JVal.jstr "A", "10.0.0.1", JVal.jnum 8001, JVal.jnull, 50, 0⟩
    ∧ (heartbeat [("node_id", JVal.jstr "A")] 50
      [((JVal.jstr "A"),
        (⟨JVal.jstr "A", "10.0.0.1", JVal.jnum 8001, JVal.jnull, 0, 0⟩ : Node)),
       ((JVal.jstr "B"),
        (⟨JVal.jstr "B", "10.0.0.2", JVal.jnum 8002, JVal.jnull, 25, 25⟩ : Node))]
      ).registry.find? (JVal.jstr "B") =
        some ⟨JVal.jstr "B", "10.0.0.2", JVal.jnum 8002, JVal.jnull, 25, 25⟩
    ∧ (heartbeat [("node_id", JVal.jstr "C")] 50
      [((JVal.jstr "A"),
        (⟨JVal.jstr "A", "10.0.0.1", JVal.jnum 8001, JVal.jnull, 0, 0⟩ : Node))]
      ).status = 404 := by
  refine ⟨?_, ?_, ?_, ?_⟩
  · exact ((C3_heartbeat_exact _ 50 (JVal.jstr "A") [("node_id", JVal.jstr "A")]
      (by decide) (by decide)).1
      ⟨JVal.jstr "A", "10.0.0.1", JVal.jnum 8001, JVal.jnull, 0, 0⟩ (by decide)).1
  · exact ((C3_heartbeat_exact _ 50 (JVal.jstr "A") [("node_id", JVal.jstr "A")]
      (by decide) (by decide)).1
      ⟨JVal.jstr "A", "10.0.0.1", JVal.jnum 8001, JVal.jnull, 0, 0⟩ (by decide)).2.1
  · rw [((C3_heartbeat_exact _ 50 (JVal.jstr "A") [("node_id", JVal.jstr "A")]
      (by decide) (by decide)).1
      ⟨JVal.jstr "A", "10.0.0.1", JVal.jnum 8001, JVal.jnull, 0, 0⟩ (by decide)).2.2
      (JVal.jstr "B") (by decide)]
    decide
  · exact ((C3_heartbeat_exact _ 50 (JVal.jstr "C") [("node_id", JVal.jstr "C")]
      (by decide) (by decide)).2 (by decide)).1

/-- C5: re-registering an already-present `node_id` succeeds with 201 and
replaces the record wholesale: the stored record has the new ip, port and
public key and both `registered_at` and `last_heartbeat` equal to now
(the prior join timestamp is gone); every other record is untouched. -/
theorem C5_reregister_overwrites (reg : Registry) (ip : String) (now : Int)
    (nid p : JVal) (old : Node) (body : Body)
    (_hold : reg.find? nid = some old)
    (hn : body.get? "node_id" = some nid)
    (hp : body.get? "port" = some p) :
    (register_node body ip now reg).status = 201
    ∧ (register_node body ip now reg).registry.find? nid =
        some ⟨nid, ip, p, body.dget "public_key", now, now⟩
    ∧ ∀ k, k ≠ nid →
        (register_node body ip now reg).registry.find? k = reg.find? k := by
  have hkeys : (body.hasKey "node_id" && body.hasKey "port") = true := by
    simp [Body.hasKey, hn, hp]
  have hdn : body.dget "node_id" = nid := by simp [Body.dget, hn]
  have hdp : body.dget "port" = p := by simp [Body.dget, hp]
  refine ⟨?_, ?_, ?_⟩
  · simp [register_node, hkeys]
  · simp only [register_node, hkeys, if_true, hdn, hdp]
    exact Registry.find?_insert_self reg nid _
  · intro k hk
    simp only [register_node, hkeys, if_true, hdn, hdp]
    exact Registry.find?_insert_ne reg nid _ k hk

/-- C5 witness: re-registering "A" (previously joined at time 0 on port
8001) at time 50 from ip 10.9.9.9 on port 9001 yields 201, a record with
both timestamps 50 and the new address, and leaves "B" intact. -/
theorem C5_reregister_overwrites_witness :
    (register_node [("node_id", JVal.jstr "A"), ("port", JVal.jnum 9001)]
      "10.9.9.9" 50
      [((JVal.jstr "A"),
        (⟨JVal.jstr "A", "10.0.0.1", JVal.jnum 8001, JVal.jnull, 0, 0⟩ : Node)),
       ((JVal.jstr "B"),
        (⟨JVal.jstr "B", "10.0.0.2", JVal.jnum 8002, JVal.jnull, 25, 25⟩ : Node))]
      ).status = 201
    ∧ (register_node [("node_id", JVal.jstr "A"), ("port", JVal.jnum 9001)]
      "10.9.9.9" 50
      [((JVal.jstr "A"),
        (⟨JVal.jstr "A", "10.0.0.1", JVal.jnum 8001, JVal.jnull, 0, 0⟩ : Node)),
       ((JVal.jstr "B"),
        (⟨JVal.jstr "B", "10.0.0.2", JVal.jnum 8002, JVal.jnull, 25, 25⟩ : Node))]
      ).registry.find? (JVal.jstr "A") =
        some ⟨JVal.jstr "A", "10.9.9.9", JVal.jnum 9001, JVal.jnull, 50, 50⟩
    ∧ (register_node [("node_id", JVal.jstr "A"), ("port", JVal.jnum 9001)]
      "10.9.9.9" 50
      [((JVal.jstr "A"),
        (⟨JVal.jstr "A", "10.0.0.1", JVal.jnum 8001, JVal.jnull, 0, 0⟩ : Node)),
       ((JVal.jstr "B"),
        (⟨JVal.jstr "B", "10.0.0.2", JVal.jnum 8002, JVal.jnull, 25, 25⟩ : Node))]
      ).registry.find? (JVal.jstr "B") =
        some ⟨JVal.jstr "B", "10.0.0.2", JVal.jnum 8002, JVal.jnull, 25, 25⟩ := by
  have h := C5_reregister_overwrites
    [((JVal.jstr "A"),
      (⟨JVal.jstr "A", "10.0.0.1", JVal.jnum 8001, JVal.jnull, 0, 0⟩ : Node)),
     ((JVal.jstr "B"),
      (⟨JVal.jstr "B", "10.0.0.2", JVal.jnum 8002, JVal.jnull, 25, 25⟩ : Node))]
    "10.9.9.9" 50 (JVal.jstr "A") (JVal.jnum 9001)
    ⟨JVal.jstr "A", "10.0.0.1", JVal.jnum 8001, JVal.jnull, 0, 0⟩
    [("node_id", JVal.jstr "A"), ("port", JVal.jnum 9001)]
    (by decide) (by decide) (by decide)
  refine ⟨h.1, ?_, ?_⟩
  · rw [h.2.1]; decide
  · rw [h.2.2 (JVal.jstr "B") (by decide)]; decide

/-- C6 counterexample: on a successful send the call returns `True`, not
the ack body: two runs in which the peer's handler produces different ack
bodies (timestamps 5 and 7) yield identical send results, so the result
cannot be the acknowledgment body. -/
theorem C6_counterexample :
    (send_message_to_peer
      [((JVal.jstr "B"),
        (⟨JVal.jstr "B", "10.0.0.2", JVal.jnum 8002, JVal.jnull, 25, 25⟩ : NodeDict))]
      (JVal.jstr "A") (JVal.jstr "B") "text" "hi" 0
      (fun _ _ env => handle_peer_connection (some env) 5)).retval = true
    ∧ send_message_to_peer
      [((JVal.jstr "B"),
        (⟨JVal.jstr "B", "10.0.0.2", JVal.jnum 8002, JVal.jnull, 25, 25⟩ : NodeDict))]
      (JVal.jstr "A") (JVal.jstr "B") "text" "hi" 0
      (fun _ _ env => handle_peer_connection (some env) 5) =
      send_message_to_peer
      [((JVal.jstr "B"),
        (⟨JVal.jstr "B", "10.0.0.2", JVal.jnum 8002, JVal.jnull, 25, 25⟩ : NodeDict))]
      (JVal.jstr "A") (JVal.jstr "B") "text" "hi" 0
      (fun _ _ env => handle_peer_connection (some env) 7)
    ∧ handle_peer_connection
        (some ⟨JVal.jstr "A", JVal.jstr "B", "text", "hi", 0⟩) 5 ≠
      handle_peer_connection
        (some ⟨JVal.jstr "A", JVal.jstr "B", "text", "hi", 0⟩) 7 := by
  decide

/-- C6 (amended): when the peer is cached and the exchange reaches the
peer's handler, the handler produces exactly the ack body
`{status: "received", timestamp}`; the send call receives it and returns
`True` (the boolean success indicator) after one dial to the cached
address — the ack body itself is printed, not returned. -/
theorem C6_send_ack (pv : PeerView) (self_id pid : JVal)
    (message_type payload : String) (now hnow : Int) (peer : NodeDict)
    (hfind : pv.find? pid = some peer) :
    handle_peer_connection (some ⟨self_id, pid, message_type, payload, now⟩)
        hnow = some ⟨"received", hnow⟩
    ∧ send_message_to_peer pv self_id pid message_type payload now
        (fun _ _ env => handle_peer_connection (some env) hnow) =
      ⟨true, [⟨peer.ip_address, peer.port,
        ⟨self_id, pid, message_type, payload, now⟩⟩], pv⟩ := by
  refine ⟨rfl, ?_⟩
  simp [send_message_to_peer, hfind, handle_peer_connection]

/-- C6 witness: A sends a text "hi" to cached peer B whose handler stamps
time 9: the handler's ack is `{status: "received", timestamp: 9}` and the
send call returns `True` with one dial to B's address. -/
theorem C6_send_ack_witness :
    handle_peer_connection
      (some ⟨JVal.jstr "A", JVal.jstr "B", "text", "hi", 0⟩) 9 =
      some ⟨"received", 9⟩
    ∧ send_message_to_peer
      [((JVal.jstr "B"),
        (⟨JVal.jstr "B", "10.0.0.2", JVal.jnum 8002, JVal.jnull, 25, 25⟩ : NodeDict))]
      (JVal.jstr "A") (JVal.jstr "B") "text" "hi" 0
      (fun _ _ env => handle_peer_connection (some env) 9) =
      ⟨true, [⟨"10.0.0.2", JVal.jnum 8002,
        ⟨JVal.jstr "A", JVal.jstr "B", "text", "hi", 0⟩⟩],
        [((JVal.jstr "B"),
          (⟨JVal.jstr "B", "10.0.0.2", JVal.jnum 8002, JVal.jnull, 25, 25⟩ : NodeDict))]⟩ :=
  C6_send_ack
    [((JVal.jstr "B"),
      (⟨JVal.jstr "B", "10.0.0.2", JVal.jnum 8002, JVal.jnull, 25, 25⟩ : NodeDict))]
    (JVal.jstr "A") (JVal.jstr "B") "text" "hi" 0 9
    ⟨JVal.jstr "B", "10.0.0.2", JVal.jnum 8002, JVal.jnull, 25, 25⟩
    (by decide)

/-- Cached entries survive the discovery merge unchanged. -/
theorem mergePeers_preserves (new_peers : List NodeDict) :
    ∀ (pv : PeerView) (k : JVal) (v : NodeDict), pv.find? k = some v →
      (mergePeers pv new_peers).find? k = some v := by
  induction new_peers with
  | nil =>
      intro pv k v h
      simpa [mergePeers] using h
  | cons d rest ih =>
      intro pv k v h
      have hstep : mergePeers pv (d :: rest) = mergePeers
          (if (pv.find? d.node_id).isSome then pv
           else pv.insert d.node_id d) rest := by
        simp [mergePeers]
      rw [hstep]
      apply ih
      by_cases hd : (pv.find? d.node_id).isSome = true
      · simpa [hd] using h
      · have hne : k ≠ d.node_id := by
          intro he
          rw [he] at h
          simp [h] at hd
        rw [if_neg hd, PeerView.insert_find?_ne pv d.node_id d k hne]
        exact h

/-- A key appearing only after the discovery merge carries a record taken
from the discovery result, stored under its own `node_id`. -/
theorem mergePeers_new_only (new_peers : List NodeDict) :
    ∀ (pv : PeerView) (k : JVal) (w : NodeDict), pv.find? k = none →
      (mergePeers pv new_peers).find? k = some w →
      w ∈ new_peers ∧ w.node_id = k := by
  induction new_peers with
  | nil =>
      intro pv k w h1 h2
      simp only [mergePeers, List.foldl_nil] at h2
      rw [h1] at h2
      cases h2
  | cons d rest ih =>
      intro pv k w h1 h2
      have hstep : mergePeers pv (d :: rest) = mergePeers
          (if (pv.find? d.node_id).isSome then pv
           else pv.insert d.node_id d) rest := by
        simp [mergePeers]
      rw [hstep] at h2
      by_cases hd : (pv.find? d.node_id).isSome = true
      · rw [if_pos hd] at h2
        have hrec := ih pv k w h1 h2
        exact ⟨List.mem_cons_of_mem d hrec.1, hrec.2⟩
      · rw [if_neg hd] at h2
        by_cases hk : k = d.node_id
        · have hins : (pv.insert d.node_id d).find? k = some d := by
            rw [hk]
            exact PeerView.insert_find?_self pv d.node_id d
          have hkeep := mergePeers_preserves rest (pv.insert d.node_id d) k d hins
          rw [hkeep] at h2
          have hw : w = d := (Option.some_inj.mp h2).symm
          constructor
          · rw [hw]
            exact List.mem_cons_self d rest
          · rw [hw, hk]
        · have hins : (pv.insert d.node_id d).find? k = none := by
            rw [PeerView.insert_find?_ne pv d.node_id d k hk]
            exact h1
          have hrec := ih _ k w hins h2
          exact ⟨List.mem_cons_of_mem d hrec.1, hrec.2⟩

/-- C8: the discovery merge is insert-if-absent: every entry cached
before the merge is byte-for-byte unchanged afterwards, whatever the
registry returned for that id, and any key present only after the merge
was absent before and carries a record from the discovery result stored
under its own `node_id`. -/
theorem C8_merge_insert_if_absent (pv : PeerView) (new_peers : List NodeDict) :
    (∀ k v, pv.find? k = some v →
      (mergePeers pv new_peers).find? k = some v)
    ∧ (∀ k w, pv.find? k = none →
      (mergePeers pv new_peers).find? k = some w →
      w ∈ new_peers ∧ w.node_id = k) :=
  ⟨fun k v h => mergePeers_preserves new_peers pv k v h,
   fun k w h1 h2 => mergePeers_new_only new_peers pv k w h1 h2⟩

/-- C8 witness: merging a discovery result that reports a new address for
the cached peer B and a fresh peer C leaves B's cached record unchanged
and inserts C's record from the result. -/
theorem C8_merge_insert_if_absent_witness :
    (mergePeers
      [((JVal.jstr "B"),
        (⟨JVal.jstr "B", "10.0.0.2", JVal.jnum 8002, JVal.jnull, 25, 25⟩ : NodeDict))]
      [(⟨JVal.jstr "B", "10.7.7.7", JVal.jnum 9999, JVal.jnull, 49, 1⟩ : NodeDict),
       (⟨JVal.jstr "C", "10.0.0.5", JVal.jnum 8005, JVal.jnull, 48, 2⟩ : NodeDict)]
      ).find? (JVal.jstr "B") =
      some ⟨JVal.jstr "B", "10.0.0.2", JVal.jnum 8002, JVal.jnull, 25, 25⟩
    ∧ ((⟨JVal.jstr "C", "10.0.0.5", JVal.jnum 8005, JVal.jnull, 48, 2⟩ : NodeDict)
        ∈ [(⟨JVal.jstr "B", "10.7.7.7", JVal.jnum 9999, JVal.jnull, 49, 1⟩ : NodeDict),
           (⟨JVal.jstr "C", "10.0.0.5", JVal.jnum 8005, JVal.jnull, 48, 2⟩ : NodeDict)]
        ∧ (⟨JVal.jstr "C", "10.0.0.5", JVal.jnum 8005, JVal.jnull, 48, 2⟩ :
            NodeDict).node_id = JVal.jstr "C") := by
  have h := C8_merge_insert_if_absent
    [((JVal.jstr "B"),
      (⟨JVal.jstr "B", "10.0.0.2", JVal.jnum 8002, JVal.jnull, 25, 25⟩ : NodeDict))]
    [(⟨JVal.jstr "B", "10.7.7.7", JVal.jnum 9999, JVal.jnull, 49, 1⟩ : NodeDict),
     (⟨JVal.jstr "C", "10.0.0.5", JVal.jnum 8005, JVal.jnull, 48, 2⟩ : NodeDict)]
  constructor
  · exact h.1 (JVal.jstr "B")
      ⟨JVal.jstr "B", "10.0.0.2", JVal.jnum 8002, JVal.jnull, 25, 25⟩ (by decide)
  · exact h.2 (JVal.jstr "C")
      ⟨JVal.jstr "C", "10.0.0.5", JVal.jnum 8005, JVal.jnull, 48, 2⟩
      (by decide) (by decide)

/-- C9: field checking is asymmetric: register accepts any present
`node_id`/`port` values, so a falsy id (e.g. `""` or null) creates a
record, while heartbeat, discover and unregister all reject that same
falsy id with 400 and leave the registry untouched — such a record is
unreachable through those endpoints. -/
theorem C9_falsy_asymmetry (reg : Registry) (ip : String) (now : Int)
    (nid p : JVal) (hf : nid.falsy = true) :
    (register_node [("node_id", nid), ("port", p)] ip now reg).status = 201
    ∧ (register_node [("node_id", nid), ("port", p)] ip now reg).registry.find?
        nid = some ⟨nid, ip, p, JVal.jnull, now, now⟩
    ∧ heartbeat [("node_id", nid)] now reg = ⟨400, reg⟩
    ∧ discover_peers [("node_id", nid)] now reg = ⟨400, 0, [], reg⟩
    ∧ unregister_node [("node_id", nid)] reg = ⟨400, reg⟩ := by
  have hdn : Body.dget [("node_id", nid), ("port", p)] "node_id" = nid := by
    simp [Body.dget, Body.get?]
  have hdp : Body.dget [("node_id", nid), ("port", p)] "port" = p := by
    simp [Body.dget, Body.get?]
  have hdpk : Body.dget [("node_id", nid), ("port", p)] "public_key" =
      JVal.jnull := by
    simp [Body.dget, Body.get?]
  have hd1 : Body.dget [("node_id", nid)] "node_id" = nid := by
    simp [Body.dget, Body.get?]
  have hkeys : (Body.hasKey [("node_id", nid), ("port", p)] "node_id" &&
      Body.hasKey [("node_id", nid), ("port", p)] "port") = true := by
    simp [Body.hasKey, Body.get?]
  refine ⟨?_, ?_, ?_, ?_, ?_⟩
  · simp [register_node, hkeys]
  · simp only [register_node, hkeys, if_true, hdn, hdp, hdpk]
    exact Registry.find?_insert_self reg nid _
  · simp [heartbeat, hd1, hf]
  · simp [discover_peers, hd1, hf]
  · simp [unregister_node, hd1, hf]

/-- C9 witness: with id `""` and port 7 the register call yields 201 and
stores a record under `""`, while heartbeat, discover and unregister with
id `""` all return 400 leaving the one-node registry unchanged. -/
theorem C9_falsy_asymmetry_witness :
    (register_node [("node_id", JVal.jstr ""), ("port", JVal.jnum 7)]
      "10.0.0.4" 50
      [((JVal.jstr "A"),
        (⟨JVal.jstr "A", "10.0.0.1", JVal.jnum 8001, JVal.jnull, 0, 0⟩ : Node))]
      ).status = 201
    ∧ (register_node [("node_id", JVal.jstr ""), ("port", JVal.jnum 7)]
      "10.0.0.4" 50
      [((JVal.jstr "A"),
        (⟨JVal.jstr "A", "10.0.0.1", JVal.jnum 8001, JVal.jnull, 0, 0⟩ : Node))]
      ).registry.find? (JVal.jstr "") =
        some ⟨JVal.jstr "", "10.0.0.4", JVal.jnum 7, JVal.jnull, 50, 50⟩
    ∧ heartbeat [("node_id", JVal.jstr "")] 50
      [((JVal.jstr "A"),
        (⟨JVal.jstr "A", "10.0.0.1", JVal.jnum 8001, JVal.jnull, 0, 0⟩ : Node))] =
      ⟨400, [((JVal.jstr "A"),
        (⟨JVal.jstr "A", "10.0.0.1", JVal.jnum 8001, JVal.jnull, 0, 0⟩ : Node))]⟩
    ∧ unregister_node [("node_id", JVal.jstr "")]
      [((JVal.jstr "A"),
        (⟨JVal.jstr "A", "10.0.0.1", JVal.jnum 8001, JVal.jnull, 0, 0⟩ : Node))] =
      ⟨400, [((JVal.jstr "A"),
        (⟨JVal.jstr "A", "10.0.0.1", JVal.jnum 8001, JVal.jnull, 0, 0⟩ : Node))]⟩ := by
  have h := C9_falsy_asymmetry
    [((JVal.jstr "A"),
      (⟨JVal.jstr "A", "10.0.0.1", JVal.jnum 8001, JVal.jnull, 0, 0⟩ : Node))]
    "10.0.0.4" 50 (JVal.jstr "") (JVal.jnum 7) (by decide)
  exact ⟨h.1, h.2.1, h.2.2.1, h.2.2.2.2⟩

/-- C10: discover, the `/nodes` listing, and the health check leave the
registry exactly as it was. -/
theorem C10_read_only (reg : Registry) (body : Body) (now : Int) :
    (discover_peers body now reg).registry = reg
    ∧ (list_nodes now reg).registry = reg
    ∧ (health_check reg).registry = reg := by
  refine ⟨?_, rfl, rfl⟩
  by_cases h : (body.dget "node_id").falsy <;> simp [discover_peers, h]
